import Mathlib

/-!
Verification of the ispawn configuration-to-deployment compiler.

This file gives a shallow embedding of the core of the ispawn repository:

* `ispawn/domain/config.py`   — `Config.__init__`, `to_yaml` / `from_yaml`
* `ispawn/main.py`            — `parse_volumes`, `is_valid_path`
* `ispawn/domain/image.py`    — `ImageConfig.target_image`
* `ispawn/domain/container.py`— `ContainerConfig.__init__` (volumes) and
  `ContainerConfig.get_labels`

Python strings are modelled as `String`, machine side effects (`Path.resolve`,
`Path.home`, `mkdir`) as explicit function parameters / explicit state, and
Python exceptions as `Except` values.
-/

set_option maxHeartbeats 1000000

deriving instance DecidableEq for Except

namespace Ispawn

/-! ## String utilities mirroring the Python primitives used by the code -/

/-- Lexicographic comparison of char lists by code point: the order used by
Python's built-in string comparison (and hence by `list.sort()` on strings). -/
def lexLe : List Char → List Char → Bool
  | [], _ => true
  | _ :: _, [] => false
  | a :: as, b :: bs =>
    if a.toNat < b.toNat then true
    else if b.toNat < a.toNat then false
    else lexLe as bs

/-- Python `s1 <= s2` on strings. -/
def strLe (a b : String) : Bool := lexLe a.data b.data

/-- Python `list.sort()` on strings: sorts into nondecreasing `strLe` order. -/
def sortStrings (l : List String) : List String :=
  List.insertionSort (fun a b => strLe a b = true) l

/-- Splitting a char list at every occurrence of `c`; models Python
`str.split(sep)` (for a one-character separator), which always returns at
least one field and keeps empty fields. -/
def splitChar (c : Char) : List Char → List (List Char)
  | [] => [[]]
  | x :: xs =>
    match splitChar c xs with
    | [] => [[]]
    | y :: ys => if x = c then [] :: y :: ys else (x :: y) :: ys

/-- Python `s.split(c)` for a single-character separator `c`. -/
def strSplit (s : String) (c : Char) : List String :=
  (splitChar c s.data).map String.mk

/-- Python `s.rstrip("/")`. -/
def rstripSlash (s : String) : String :=
  String.mk ((s.data.reverse.dropWhile (fun c => c = '/')).reverse)

/-- Python `s.lstrip("/")`. -/
def lstripSlash (s : String) : String :=
  String.mk (s.data.dropWhile (fun c => c = '/'))

/-- Python `s.endswith(suffix)`. -/
def strEndsWith (s suffix : String) : Bool := suffix.data.isSuffixOf s.data

/-- Python `s.lower()`. -/
def strLower (s : String) : String := String.mk (s.data.map Char.toLower)

/-- Truthiness of an optional Python string: `None` and `""` are falsy. -/
def truthy : Option String → Bool
  | none => false
  | some s => !(s == "")

/-- Python `"-".join(l)`. -/
def joinDash : List String → String
  | [] => ""
  | [x] => x
  | x :: y :: ys => x ++ "-" ++ joinDash (y :: ys)

/-- Python `os.path.join(a, b)` for POSIX paths (two arguments). -/
def osPathJoin (a b : String) : String :=
  if b.data.headD ' ' = '/' then b
  else if a = "" then b
  else if a.data.getLastD ' ' = '/' then a ++ b
  else a ++ "/" ++ b

/-! ## Exceptions -/

/-- The Python exceptions raised by the embedded code. -/
inductive PyError where
  | configurationError (msg : String)
  | valueError (msg : String)
  | fileNotFoundError (msg : String)
  deriving DecidableEq, Repr

/-- Did the computation abort with a `ConfigurationError`? -/
def isConfigErr {α : Type} : Except PyError α → Bool
  | .error (.configurationError _) => true
  | _ => false

/-! ## Mode enums (`ispawn/domain/config.py`) -/

/-- `ProxyMode` from `ispawn/domain/config.py` (`local` / `remote`).
`local` is a Lean keyword, so the constructors carry a `Mode` suffix. -/
inductive ProxyMode where
  | localMode
  | remoteMode
  deriving DecidableEq, Repr

def ProxyMode.toStr : ProxyMode → String
  | .localMode => "local"
  | .remoteMode => "remote"

/-- `ProxyMode.from_str`: lowercases, then matches an enum value;
raises `ValueError` otherwise. -/
def ProxyMode.fromStr (s : String) : Except PyError ProxyMode :=
  if strLower s = "local" then .ok .localMode
  else if strLower s = "remote" then .ok .remoteMode
  else .error (.valueError ("Invalid proxymode: " ++ s))

/-- `CertMode` from `ispawn/domain/config.py`. -/
inductive CertMode where
  | letsencrypt
  | provided
  deriving DecidableEq, Repr

def CertMode.toStr : CertMode → String
  | .letsencrypt => "letsencrypt"
  | .provided => "provided"

def CertMode.fromStr (s : String) : Except PyError CertMode :=
  if strLower s = "letsencrypt" then .ok .letsencrypt
  else if strLower s = "provided" then .ok .provided
  else .error (.valueError ("Invalid certmode: " ++ s))

/-- `InstallMode` from `ispawn/domain/config.py`. -/
inductive InstallMode where
  | system
  | user
  deriving DecidableEq, Repr

def InstallMode.toStr : InstallMode → String
  | .system => "system"
  | .user => "user"

def InstallMode.fromStr (s : String) : Except PyError InstallMode :=
  if strLower s = "system" then .ok .system
  else if strLower s = "user" then .ok .user
  else .error (.valueError ("Invalid installmode: " ++ s))

/-! ## Config (`ispawn/domain/config.py`) -/

/-- The stored attributes of a constructed `Config` object (its `__dict__`,
in declaration order).  `home_prefix` is called `homePre` because of naming
restrictions of this development. -/
structure Config where
  mode : ProxyMode
  installMode : InstallMode
  dns : List String
  domain : String
  subnet : String
  name : String
  userInNamespace : Bool
  mountPoint : String
  volumes : Option (List (List String))
  envChunkPath : Option String
  dockerfileChunkPath : Option String
  entrypointChunkPath : Option String
  homePre : String
  timezone : String
  certMode : Option CertMode
  certDir : String
  email : Option String
  deriving DecidableEq, Repr

/-- `Config.config_dir` (`/etc/ispawn` or `~/.ispawn`), with `Path.home()`
passed explicitly as `home`. -/
def configDir (home : String) (im : InstallMode) : String :=
  match im with
  | .system => "/etc/ispawn"
  | .user => home ++ "/.ispawn"

/-- `Config.user_root_dir` (`~/.ispawn/user/<name>`). -/
def userRootDir (home name : String) : String :=
  home ++ "/.ispawn/user/" ++ name

/-- `Config.base_log_dir` (`<user_root_dir>/logs`). -/
def baseLogDir (home name : String) : String :=
  userRootDir home name ++ "/logs"

/-- `mount_point.rstrip("/") if mount_point else ""`. -/
def normMountPoint : Option String → String
  | none => ""
  | some s => if s = "" then "" else rstripSlash s

/-- `dns or ["8.8.8.8", "8.8.4.4"]`. -/
def normDns : Option (List String) → List String
  | none => ["8.8.8.8", "8.8.4.4"]
  | some [] => ["8.8.8.8", "8.8.4.4"]
  | some (x :: xs) => x :: xs

/-- `str(Path(p).resolve()) if p else None`, with `Path.resolve` (a
filesystem operation) passed explicitly as `resolve`. -/
def normChunk (resolve : String → String) : Option String → Option String
  | none => none
  | some s => if s = "" then none else some (resolve s)

/-- The certificate-configuration block of `Config.__init__`
(`ispawn/domain/config.py` lines 125-142).  Returns the stored
`(cert_mode, email)` pair on success. -/
def certValidation (pm : ProxyMode) (domain : String) (certModeS : Option String)
    (email : Option String) : Except PyError (Option CertMode × Option String) :=
  match pm with
  | .remoteMode =>
    match certModeS with
    | none => .error (.configurationError "Certificate mode is required for remote proxy")
    | some cs =>
      match CertMode.fromStr cs with
      | .error e => .error e
      | .ok cm =>
        if cm = .letsencrypt ∧ truthy email = false then
          .error (.configurationError "Email is required for Let's Encrypt certificates")
        else .ok (some cm, email)
  | .localMode =>
    if truthy email then
      .error (.configurationError "Email is not used in local proxy mode")
    else if strEndsWith domain ".localhost" = false then
      .error (.configurationError "Domain must end with '.localhost' in local proxy mode")
    else .ok (none, none)

/-- `Config.__init__`, with its two filesystem effects made explicit:
`resolve` stands for `Path.resolve`, `home` for `Path.home()`, and the
first component of the result lists the directories handed to
`mkdir(parents=True, exist_ok=True)`, in call order, before certificate
validation runs. -/
def mkConfigFS (resolve : String → String) (home : String)
    (installModeS modeS domain subnet name : String)
    (dns : Option (List String)) (uin : Bool)
    (certModeS : Option String) (certDirO : Option String)
    (email : Option String) (vols : Option (List (List String)))
    (mp : Option String)
    (envC dockC entryC : Option String)
    (homePreS timezone : String) :
    List String × Except PyError Config :=
  match ProxyMode.fromStr modeS with
  | .error e => ([], .error e)
  | .ok pm =>
    match InstallMode.fromStr installModeS with
    | .error e => ([], .error e)
    | .ok im =>
      let dirs := [userRootDir home name, baseLogDir home name]
      match certValidation pm domain certModeS email with
      | .error e => (dirs, .error e)
      | .ok (cm, em) =>
        (dirs, .ok
          { mode := pm
            installMode := im
            dns := normDns dns
            domain := domain
            subnet := subnet
            name := name
            userInNamespace := uin
            mountPoint := normMountPoint mp
            volumes := vols
            envChunkPath := normChunk resolve envC
            dockerfileChunkPath := normChunk resolve dockC
            entrypointChunkPath := normChunk resolve entryC
            homePre := rstripSlash homePreS
            timezone := timezone
            certMode := cm
            certDir :=
              match certDirO with
              | none => configDir home im ++ "/certs"
              | some d => d
            email := em })

/-- `Config.__init__` viewed as a constructor only (the raised exception or
the constructed object). -/
def mkConfig (resolve : String → String) (home : String)
    (installModeS modeS domain subnet name : String)
    (dns : Option (List String)) (uin : Bool)
    (certModeS : Option String) (certDirO : Option String)
    (email : Option String) (vols : Option (List (List String)))
    (mp : Option String)
    (envC dockC entryC : Option String)
    (homePreS timezone : String) : Except PyError Config :=
  (mkConfigFS resolve home installModeS modeS domain subnet name dns uin
    certModeS certDirO email vols mp envC dockC entryC homePreS timezone).2

/-- The document written by `Config.to_yaml`: every stored attribute, with
mode enums serialized to their string values. -/
structure ConfigData where
  mode : String
  installMode : String
  dns : List String
  domain : String
  subnet : String
  name : String
  userInNamespace : Bool
  mountPoint : String
  volumes : Option (List (List String))
  envChunkPath : Option String
  dockerfileChunkPath : Option String
  entrypointChunkPath : Option String
  homePre : String
  timezone : String
  certMode : Option String
  certDir : String
  email : Option String
  deriving DecidableEq, Repr

/-- `Config.to_yaml`: dump `__dict__`, stringifying the `BaseMode` enums. -/
def Config.toYamlData (c : Config) : ConfigData :=
  { mode := c.mode.toStr
    installMode := c.installMode.toStr
    dns := c.dns
    domain := c.domain
    subnet := c.subnet
    name := c.name
    userInNamespace := c.userInNamespace
    mountPoint := c.mountPoint
    volumes := c.volumes
    envChunkPath := c.envChunkPath
    dockerfileChunkPath := c.dockerfileChunkPath
    entrypointChunkPath := c.entrypointChunkPath
    homePre := c.homePre
    timezone := c.timezone
    certMode := c.certMode.map CertMode.toStr
    certDir := c.certDir
    email := c.email }

/-- `Config.from_yaml`: re-run `Config.__init__` on the loaded document
(`cls(**data)`). -/
def Config.fromYamlData (resolve : String → String) (home : String)
    (d : ConfigData) : Except PyError Config :=
  mkConfig resolve home d.installMode d.mode d.domain d.subnet d.name
    (some d.dns) d.userInNamespace d.certMode (some d.certDir) d.email
    d.volumes (some d.mountPoint) d.envChunkPath d.dockerfileChunkPath
    d.entrypointChunkPath d.homePre d.timezone

/-! ## Volume parsing (`ispawn/main.py`) -/

/-- One character of the restrictive container-path character set of
`is_valid_path` (`^/[a-zA-Z0-9\-_\. /]+$`). -/
def isValidPathChar (c : Char) : Bool :=
  c.isAlpha || c.isDigit || c == '-' || c == '_' || c == '.' || c == ' ' || c == '/'

/-- Python `"//" in path`: does the char list contain two adjacent slashes? -/
def hasDoubleSlash : List Char → Bool
  | '/' :: '/' :: _ => true
  | _ :: rest => hasDoubleSlash rest
  | [] => false

/-- `is_valid_path` from `ispawn/main.py`: the regex above plus the
`"//" not in path` test. -/
def is_valid_path (s : String) : Bool :=
  (match s.data with
   | '/' :: rest => !rest.isEmpty && rest.all isValidPathChar
   | _ => false)
  && !(hasDoubleSlash s.data)

/-- The body of the first loop of `parse_volumes` for one raw volume
specification: split-and-check a colon-bearing spec, or synthesize the
container path for a bare path. -/
def processVolume (mnt : String) (v : String) : Except PyError (List String) :=
  if v.data.contains ':' then
    let parsed := strSplit v ':'
    if parsed.length > 3 then
      .error (.valueError ("Volume " ++ v ++ " is not valid"))
    else if parsed.length = 3 then
      if (parsed.getD 2 "") ∈ (["ro", "rw"] : List String) then .ok parsed
      else .error (.valueError ("Volume " ++ v ++ " is not valid"))
    else .ok parsed
  else
    .ok [v, rstripSlash mnt ++ "/" ++ rstripSlash (lstripSlash v)]

/-- The second loop of `parse_volumes`: resolve the host path strictly
(`Path(...).resolve(strict=True)`, passed explicitly as `resolveStrict`,
`none` meaning the path does not exist) and validate the container path. -/
def resolveLoop (resolveStrict : String → Option String) :
    List (List String) → Except PyError (List (List String))
  | [] => .ok []
  | vol :: rest =>
    match resolveStrict (vol.headD "") with
    | none => .error (.fileNotFoundError (vol.headD ""))
    | some abs =>
      if is_valid_path (vol.getD 1 "") then
        match resolveLoop resolveStrict rest with
        | .error e => .error e
        | .ok rs => .ok ((abs :: vol.tail) :: rs)
      else .error (.valueError ("Volume " ++ vol.getD 1 "" ++ " is not valid"))

/-- `parse_volumes` from `ispawn/main.py`. -/
def parse_volumes (resolveStrict : String → Option String) (mnt : String)
    (volumes : List String) : Except PyError (List (List String)) := do
  let results ← volumes.mapM (processVolume mnt)
  resolveLoop resolveStrict results

/-- Modelled from the spec: `basename(hostPath)` — the final path component,
as computed by `os.path.basename` (used only to state what the spec claims
the synthesized container path to be). -/
def basenameOf (s : String) : String :=
  String.mk ((splitChar '/' s.data).getLastD [])

/-! ## Image tag derivation (`ispawn/domain/image.py`, `target_image`) -/

/-- `ImageConfig.target_image`: sort the service value strings, join with
`-`, then branch on whether the base reference carries a tag.  The
`base_name, tag = self.base.split(":")` destructuring raises `ValueError`
when the base contains more than one colon. -/
def target_image (namePre base : String) (services : List String) :
    Except PyError String :=
  let joined := joinDash (sortStrings services)
  if base.data.contains ':' then
    match strSplit base ':' with
    | [baseName, tag] => .ok (namePre ++ baseName ++ ":" ++ tag ++ "-" ++ joined)
    | _ => .error (.valueError "too many values to unpack")
  else
    .ok (namePre ++ base ++ ":" ++ joined)

/-! ## Container labels and volumes (`ispawn/domain/container.py`) -/

/-- `Service` from `ispawn/domain/container.py`. -/
inductive CService where
  | jupyter
  | rstudio
  | vscode
  deriving DecidableEq, Repr

/-- The `prefix` entry of `service_configs` in `get_labels`. -/
def svcPre : CService → String
  | .jupyter => "jupyter"
  | .rstudio => "rstudio"
  | .vscode => "vscode"

/-- The `port` entry of `service_configs` in `get_labels`, as rendered into
the label f-strings. -/
def svcPortStr : CService → String
  | .jupyter => "8888"
  | .rstudio => "8787"
  | .vscode => "8842"

/-- `cert_mode` of a `ContainerConfig`, already validated to be one of
`"provided"` / `"letsencrypt"` by `ContainerConfig.__init__`. -/
inductive ContainerCertMode where
  | provided
  | letsencrypt
  deriving DecidableEq, Repr

/-- The fields of `ContainerConfig` that `get_labels` reads. -/
structure ContainerCfg where
  raw_name : String
  domain : String
  services : List CService
  cert_mode : ContainerCertMode
  deriving DecidableEq, Repr

/-- The router / load-balancer identifier `f"{prefix}-{raw_name}"` used in
every `traefik.http.routers.*` and `traefik.http.services.*` key of
`get_labels`. -/
def routerId (s : CService) (rawName : String) : String :=
  svcPre s ++ "-" ++ rawName

/-- The certificate-resolver TLS label emitted when `cert_mode` is
`letsencrypt`. -/
def certResolverLabel (s : CService) (rawName : String) : String :=
  "traefik.http.routers." ++ routerId s rawName ++ ".tls.certresolver=letsencrypt"

/-- The plain TLS label emitted when `cert_mode` is not `letsencrypt`. -/
def plainTlsLabel (s : CService) (rawName : String) : String :=
  "traefik.http.routers." ++ routerId s rawName ++ ".tls=true"

/-- The `service_labels` block of `get_labels` for one service, in emission
order (the TLS label is appended last). -/
def serviceLabels (cfg : ContainerCfg) (s : CService) : List String :=
  [ "ispawn.service." ++ svcPre s ++ "=true",
    "ispawn.port." ++ svcPre s ++ "=" ++ svcPortStr s,
    "traefik.http.routers." ++ routerId s cfg.raw_name ++ ".rule=Host(`"
      ++ routerId s cfg.raw_name ++ "." ++ cfg.domain ++ "`)",
    "traefik.http.routers." ++ routerId s cfg.raw_name ++ ".entrypoints=websecure",
    "traefik.http.services." ++ routerId s cfg.raw_name
      ++ ".loadbalancer.server.port=" ++ svcPortStr s,
    "traefik.http.routers." ++ routerId s cfg.raw_name ++ ".middlewares=redirect-to-https",
    if cfg.cert_mode = .letsencrypt then certResolverLabel s cfg.raw_name
    else plainTlsLabel s cfg.raw_name ]

/-- `ContainerConfig.get_labels`: the five container-wide labels followed by
each service's block. -/
def get_labels (cfg : ContainerCfg) : List String :=
  [ "ispawn.container=" ++ cfg.raw_name,
    "ispawn.domain=" ++ cfg.domain,
    "traefik.enable=true",
    "traefik.http.middlewares.redirect-to-https.redirectscheme.scheme=https",
    "traefik.http.middlewares.redirect-to-https.redirectscheme.permanent=true" ]
  ++ cfg.services.flatMap (serviceLabels cfg)

/-- The volume bindings built in `ContainerConfig.__init__` (lines 120-125):
`volumes or [str(Path.home())]`, each mapped to
`f"{v}:{os.path.join(host_prefix, v.lstrip('/'))}"`.  `Path.home()` is the
explicit `home` parameter. -/
def mkContainerVolumes (home hostPre : String) (volumes : Option (List String)) :
    List String :=
  let raw : List String :=
    match volumes with
    | none => [home]
    | some [] => [home]
    | some (v :: vs) => v :: vs
  raw.map (fun v => v ++ ":" ++ osPathJoin hostPre (lstripSlash v))

/-! ## Helper lemmas -/

theorem data_mk (l : List Char) : (String.mk l).data = l := rfl

/-- `lexLe` is total. -/
theorem lexLe_total : ∀ as bs : List Char, lexLe as bs = true ∨ lexLe bs as = true
  | [], _ => Or.inl rfl
  | _ :: _, [] => Or.inr rfl
  | a :: as, b :: bs => by
    rcases Nat.lt_trichotomy a.toNat b.toNat with h | h | h
    · left; simp [lexLe, h]
    · have h1 : ¬ a.toNat < b.toNat := by omega
      have h2 : ¬ b.toNat < a.toNat := by omega
      rcases lexLe_total as bs with h' | h'
      · left; simp [lexLe, h1, h2, h']
      · right; simp [lexLe, h1, h2, h']
    · right; simp [lexLe, h, Nat.lt_asymm h]

/-- `lexLe` is transitive. -/
theorem lexLe_trans : ∀ as bs cs : List Char,
    lexLe as bs = true → lexLe bs cs = true → lexLe as cs = true
  | [], _, _, _, _ => rfl
  | _ :: _, [], _, h1, _ => by simp [lexLe] at h1
  | _ :: _, _ :: _, [], _, h2 => by simp [lexLe] at h2
  | a :: as, b :: bs, c :: cs, h1, h2 => by
    simp only [lexLe] at h1 h2 ⊢
    by_cases hab : a.toNat < b.toNat
    · by_cases hbc : b.toNat < c.toNat
      · have hac : a.toNat < c.toNat := Nat.lt_trans hab hbc
        simp [hac]
      · by_cases hcb : c.toNat < b.toNat
        · simp [hbc, hcb] at h2
        · have hac : a.toNat < c.toNat := by omega
          simp [hac]
    · by_cases hba : b.toNat < a.toNat
      · simp [hab, hba] at h1
      · by_cases hbc : b.toNat < c.toNat
        · have hac : a.toNat < c.toNat := by omega
          simp [hac]
        · by_cases hcb : c.toNat < b.toNat
          · simp [hbc, hcb] at h2
          · have h1' : lexLe as bs = true := by simpa [hab, hba] using h1
            have h2' : lexLe bs cs = true := by simpa [hbc, hcb] using h2
            have hac : ¬ a.toNat < c.toNat := by omega
            have hca : ¬ c.toNat < a.toNat := by omega
            simp [hac, hca, lexLe_trans as bs cs h1' h2']

/-- `lexLe` is antisymmetric. -/
theorem lexLe_antisymm : ∀ as bs : List Char,
    lexLe as bs = true → lexLe bs as = true → as = bs
  | [], [], _, _ => rfl
  | [], _ :: _, _, h2 => by simp [lexLe] at h2
  | _ :: _, [], h1, _ => by simp [lexLe] at h1
  | a :: as, b :: bs, h1, h2 => by
    by_cases hab : a.toNat < b.toNat
    · simp [lexLe, hab, Nat.lt_asymm hab] at h2
    · by_cases hba : b.toNat < a.toNat
      · simp [lexLe, hab, hba] at h1
      · have h1' : lexLe as bs = true := by simpa [lexLe, hab, hba] using h1
        have h2' : lexLe bs as = true := by simpa [lexLe, hab, hba] using h2
        have hn : a.toNat = b.toNat := by omega
        have heq : a = b :=
          Char.eq_of_val_eq (UInt32.eq_of_val_eq (Fin.ext hn))
        rw [heq, lexLe_antisymm as bs h1' h2']

/-- A permutation-invariant sort: sorting two permutations of the same
multiset of strings yields the same list. -/
theorem sortStrings_perm_eq {l1 l2 : List String} (h : l1.Perm l2) :
    sortStrings l1 = sortStrings l2 := by
  letI : IsTotal String (fun a b => strLe a b = true) :=
    ⟨fun a b => lexLe_total a.data b.data⟩
  letI : IsTrans String (fun a b => strLe a b = true) :=
    ⟨fun a b c h1 h2 => lexLe_trans a.data b.data c.data h1 h2⟩
  letI : IsAntisymm String (fun a b => strLe a b = true) :=
    ⟨fun a b h1 h2 => String.ext (lexLe_antisymm a.data b.data h1 h2)⟩
  exact List.eq_of_perm_of_sorted
    (((List.perm_insertionSort _ l1).trans h).trans
      (List.perm_insertionSort _ l2).symm)
    (List.sorted_insertionSort _ l1) (List.sorted_insertionSort _ l2)

/-- Two appends differ when they differ within their first `k` characters. -/
theorem ne_append_of_take_ne {a b : String} (k : Nat)
    (ha : k ≤ a.data.length) (hb : k ≤ b.data.length)
    (h : a.data.take k ≠ b.data.take k) (x y : String) : a ++ x ≠ b ++ y := by
  intro he
  apply h
  have hd := congrArg String.data he
  rw [String.data_append, String.data_append] at hd
  have h2 := congrArg (List.take k) hd
  rwa [List.take_append_of_le_length ha, List.take_append_of_le_length hb] at h2

/-- An append differs from a constant when they differ within the first `k`
characters. -/
theorem ne_const_of_take_ne {a : String} (k : Nat) (ha : k ≤ a.data.length)
    (c : String) (h : a.data.take k ≠ c.data.take k) (x : String) : a ++ x ≠ c := by
  intro he
  apply h
  have hd := congrArg String.data he
  rw [String.data_append] at hd
  have h2 := congrArg (List.take k) hd
  rwa [List.take_append_of_le_length ha] at h2

/-- Two appends differ when their (nonempty) right parts end differently. -/
theorem ne_append_of_last_ne {x y : String} (hx : x.data ≠ []) (hy : y.data ≠ [])
    (h : x.data.getLast? ≠ y.data.getLast?) (s t : String) : s ++ x ≠ t ++ y := by
  intro he
  apply h
  have hd := congrArg String.data he
  rw [String.data_append, String.data_append] at hd
  have h2 := congrArg List.getLast? hd
  rwa [List.getLast?_append_of_ne_nil _ hx, List.getLast?_append_of_ne_nil _ hy] at h2

/-- Left-nested variant: `(a ++ x) ++ y` differs from `b ++ z` when the
constant left parts differ within their first `k` characters. -/
theorem ne_append2_of_take_ne {a b : String} (k : Nat)
    (ha : k ≤ a.data.length) (hb : k ≤ b.data.length)
    (h : a.data.take k ≠ b.data.take k) (x y z : String) :
    (a ++ x) ++ y ≠ b ++ z := by
  intro he
  apply h
  have hd := congrArg String.data he
  rw [String.data_append, String.data_append, String.data_append] at hd
  have h2 := congrArg (List.take k) hd
  rw [List.take_append_of_le_length (by rw [List.length_append]; omega),
    List.take_append_of_le_length ha, List.take_append_of_le_length hb] at h2
  exact h2

/-- Left-nested variant against a constant. -/
theorem ne_const2_of_take_ne {a : String} (k : Nat) (ha : k ≤ a.data.length)
    (c : String) (h : a.data.take k ≠ c.data.take k) (x y : String) :
    (a ++ x) ++ y ≠ c := by
  intro he
  apply h
  have hd := congrArg String.data he
  rw [String.data_append, String.data_append] at hd
  have h2 := congrArg (List.take k) hd
  rw [List.take_append_of_le_length (by rw [List.length_append]; omega),
    List.take_append_of_le_length ha] at h2
  exact h2

/-- `splitChar` never returns the empty list (Python `split` always returns
at least one field). -/
theorem splitChar_ne_nil (c : Char) : ∀ l, splitChar c l ≠ []
  | [] => by simp [splitChar]
  | x :: xs => by
    simp only [splitChar]
    cases h : splitChar c xs with
    | nil => simp
    | cons y ys => by_cases hx : x = c <;> simp [hx]

/-- Splitting a list free of the separator yields the single original field. -/
theorem splitChar_of_not_mem {c : Char} :
    ∀ {l : List Char}, (∀ x ∈ l, x ≠ c) → splitChar c l = [l]
  | [], _ => rfl
  | x :: xs, h => by
    have hx : x ≠ c := h x (List.mem_cons_self x xs)
    have ih := splitChar_of_not_mem (fun y hy => h y (List.mem_cons_of_mem x hy))
    simp only [splitChar, ih]
    simp [hx]

/-- Splitting around the first separator occurrence. -/
theorem splitChar_append {c : Char} : ∀ (l1 l2 : List Char),
    (∀ x ∈ l1, x ≠ c) → splitChar c (l1 ++ c :: l2) = l1 :: splitChar c l2
  | [], l2, _ => by
    simp only [List.nil_append, splitChar]
    cases h : splitChar c l2 with
    | nil => exact absurd h (splitChar_ne_nil c l2)
    | cons y ys => simp
  | x :: l1, l2, h => by
    have hx : x ≠ c := h x (List.mem_cons_self x l1)
    have ih := splitChar_append l1 l2 (fun y hy => h y (List.mem_cons_of_mem x hy))
    show splitChar c (x :: (l1 ++ c :: l2)) = (x :: l1) :: splitChar c l2
    simp only [splitChar]
    rw [ih]
    simp [hx]

/-- `dropWhile` is idempotent. -/
theorem dropWhile_idem (p : Char → Bool) :
    ∀ l : List Char, List.dropWhile p (List.dropWhile p l) = List.dropWhile p l
  | [] => rfl
  | a :: l => by
    by_cases h : p a = true
    · simp [List.dropWhile_cons, h, dropWhile_idem p l]
    · simp [List.dropWhile_cons, h]

/-- `s.rstrip("/")` is idempotent. -/
theorem rstripSlash_idem (s : String) : rstripSlash (rstripSlash s) = rstripSlash s := by
  simp only [rstripSlash, data_mk, List.reverse_reverse, dropWhile_idem]

/-- Reloading a stored `mount_point` leaves it unchanged. -/
theorem normMountPoint_idem (o : Option String) :
    normMountPoint (some (normMountPoint o)) = normMountPoint o := by
  cases o with
  | none => rfl
  | some s =>
    by_cases hs : s = ""
    · simp [normMountPoint, hs]
    · by_cases hr : rstripSlash s = ""
      · simp [normMountPoint, hs, hr]
      · simp [normMountPoint, hs, hr, rstripSlash_idem]

/-- Reloading a stored `dns` list leaves it unchanged. -/
theorem normDns_idem (o : Option (List String)) :
    normDns (some (normDns o)) = normDns o := by
  cases o with
  | none => rfl
  | some l => cases l <;> rfl

/-- Reloading a stored chunk path leaves it unchanged, provided path
resolution is idempotent and never returns the empty string. -/
theorem normChunk_idem (resolve : String → String)
    (hid : ∀ s, resolve (resolve s) = resolve s)
    (hne : ∀ s, resolve s ≠ "") (o : Option String) :
    normChunk resolve (normChunk resolve o) = normChunk resolve o := by
  cases o with
  | none => rfl
  | some s =>
    by_cases hs : s = ""
    · simp [normChunk, hs]
    · simp [normChunk, hs, hne s, hid s]

/-- `ProxyMode.from_str` inverts the enum's string value. -/
theorem proxyMode_roundtrip (pm : ProxyMode) : ProxyMode.fromStr pm.toStr = .ok pm := by
  cases pm <;> decide

/-- `InstallMode.from_str` inverts the enum's string value. -/
theorem installMode_roundtrip (im : InstallMode) : InstallMode.fromStr im.toStr = .ok im := by
  cases im <;> decide

/-- `CertMode.from_str` inverts the enum's string value. -/
theorem certMode_roundtrip (cm : CertMode) : CertMode.fromStr cm.toStr = .ok cm := by
  cases cm <;> decide

/-- `ProxyMode.from_str` never raises a `ConfigurationError`. -/
theorem proxyMode_fromStr_no_configErr (s : String) (m : String) :
    ProxyMode.fromStr s ≠ .error (.configurationError m) := by
  unfold ProxyMode.fromStr
  split_ifs <;> simp

/-- `InstallMode.from_str` never raises a `ConfigurationError`. -/
theorem installMode_fromStr_no_configErr (s : String) (m : String) :
    InstallMode.fromStr s ≠ .error (.configurationError m) := by
  unfold InstallMode.fromStr
  split_ifs <;> simp

/-- Re-running the certificate-configuration block on the stored
`(cert_mode, email)` pair succeeds with the same result. -/
theorem certValidation_roundtrip {pm : ProxyMode} {domain : String}
    {certModeS : Option String} {email : Option String}
    {cm : Option CertMode} {em : Option String}
    (h : certValidation pm domain certModeS email = .ok (cm, em)) :
    certValidation pm domain (cm.map CertMode.toStr) em = .ok (cm, em) := by
  cases pm with
  | remoteMode =>
    cases certModeS with
    | none => simp [certValidation] at h
    | some cs =>
      cases hcs : CertMode.fromStr cs with
      | error e => simp [certValidation, hcs] at h
      | ok cmode =>
        simp only [certValidation, hcs] at h
        by_cases hle : cmode = .letsencrypt ∧ truthy email = false
        · rw [if_pos hle] at h
          exact absurd h (by simp)
        · rw [if_neg hle] at h
          obtain ⟨hcm, hem⟩ : some cmode = cm ∧ email = em := by simpa using h
          subst hcm
          subst hem
          simp only [certValidation, Option.map_some', certMode_roundtrip]
          rw [if_neg hle]
  | localMode =>
    simp only [certValidation] at h
    by_cases hemail : truthy email = true
    · rw [if_pos hemail] at h
      exact absurd h (by simp)
    · rw [if_neg hemail] at h
      by_cases hdom : strEndsWith domain ".localhost" = false
      · rw [if_pos hdom] at h
        exact absurd h (by simp)
      · rw [if_neg hdom] at h
        obtain ⟨hcm, hem⟩ : (none : Option CertMode) = cm ∧ (none : Option String) = em := by
          simpa using h
        subst hcm
        subst hem
        simp only [certValidation, Option.map_none']
        rw [if_neg (by decide), if_neg hdom]

/-- Under the `provided` certificate mode, `get_labels` never emits the
certificate-resolver label of any service: every emitted label provably
differs from it. -/
theorem certLabel_not_mem_provided {cfg : ContainerCfg} (s : CService)
    (hmode : cfg.cert_mode = .provided) :
    certResolverLabel s cfg.raw_name ∉ get_labels cfg := by
  intro hmem
  unfold get_labels at hmem
  rw [List.mem_append] at hmem
  rcases hmem with h | h
  · unfold certResolverLabel at h
    simp only [List.mem_cons, List.not_mem_nil, or_false] at h
    rcases h with h | h | h | h | h
    · exact absurd h (ne_append2_of_take_ne 7 (by decide) (by decide) (by decide) _ _ _)
    · exact absurd h (ne_append2_of_take_ne 7 (by decide) (by decide) (by decide) _ _ _)
    · exact absurd h (ne_const2_of_take_ne 21 (by decide) _ (by decide) _ _)
    · exact absurd h (ne_const2_of_take_ne 21 (by decide) _ (by decide) _ _)
    · exact absurd h (ne_const2_of_take_ne 21 (by decide) _ (by decide) _ _)
  · rw [List.mem_flatMap] at h
    obtain ⟨s', hs', hlab⟩ := h
    unfold serviceLabels at hlab
    rw [hmode, if_neg (by decide)] at hlab
    unfold certResolverLabel plainTlsLabel at hlab
    simp only [List.mem_cons, List.not_mem_nil, or_false] at hlab
    rcases hlab with h | h | h | h | h | h | h
    · exact absurd h (ne_append_of_last_ne (by decide) (by decide) (by decide) _ _)
    · cases s' <;>
        exact absurd h (ne_append_of_last_ne (by decide) (by decide) (by decide) _ _)
    · exact absurd h (ne_append_of_last_ne (by decide) (by decide) (by decide) _ _)
    · exact absurd h (ne_append_of_last_ne (by decide) (by decide) (by decide) _ _)
    · cases s' <;>
        exact absurd h (ne_append_of_last_ne (by decide) (by decide) (by decide) _ _)
    · exact absurd h (ne_append_of_last_ne (by decide) (by decide) (by decide) _ _)
    · exact absurd h (ne_append_of_last_ne (by decide) (by decide) (by decide) _ _)

/-! ## Claim theorems -/

/-- C1 counterexample: a construction attempt in Local access mode with the
certificate mode `letsencrypt` supplied and no email (domain carrying the
required `.localhost` suffix) succeeds — the local branch silently discards
the certificate mode — although the claim's condition "certificate mode is
letsencrypt and no email is given" demands a `ConfigurationError`. -/
theorem config_local_cert_mode_counterexample :
    truthy none = false
    ∧ (mkConfig (fun s => s) "/home/u" "user" "local" "demo.localhost"
        "172.30.0.0/24" "ispawn" none false (some "letsencrypt") none none none
        none none none none "/home/" "Europe/Paris").isOk = true := by
  decide

/-- C1 amended: for parseable mode strings, `Config.__init__` raises a
`ConfigurationError` exactly when: the access mode is Local and the domain
lacks the `.localhost` suffix; or Local with a non-empty email; or Remote
with no certificate mode; or Remote with certificate mode `letsencrypt` and
no (non-empty) email.  In Local mode a supplied certificate mode is ignored,
not rejected. -/
theorem config_validation_iff (resolve : String → String) (home : String)
    (im : InstallMode) (pm : ProxyMode) (domain subnet name : String)
    (dns : Option (List String)) (uin : Bool) (cm : Option CertMode)
    (certDirO email : Option String) (vols : Option (List (List String)))
    (mp envC dockC entryC : Option String) (homePreS tz : String) :
    isConfigErr (mkConfig resolve home im.toStr pm.toStr domain subnet name dns uin
        (cm.map CertMode.toStr) certDirO email vols mp envC dockC entryC homePreS tz)
      = true
    ↔ ((pm = .localMode ∧ strEndsWith domain ".localhost" = false)
       ∨ (pm = .localMode ∧ truthy email = true)
       ∨ (pm = .remoteMode ∧ cm = none)
       ∨ (pm = .remoteMode ∧ cm = some .letsencrypt ∧ truthy email = false)) := by
  unfold mkConfig
  simp only [mkConfigFS, proxyMode_roundtrip, installMode_roundtrip]
  cases pm with
  | localMode =>
    by_cases hemail : truthy email = true
    · simp [certValidation, hemail, isConfigErr]
    · by_cases hdom : strEndsWith domain ".localhost" = false
      · simp [certValidation, hemail, hdom, isConfigErr]
      · simp [certValidation, hemail, hdom, isConfigErr]
  | remoteMode =>
    cases cm with
    | none => simp [certValidation, isConfigErr]
    | some cmode =>
      simp only [Option.map_some', certValidation, certMode_roundtrip]
      by_cases hle : cmode = .letsencrypt ∧ truthy email = false
      · obtain ⟨hc, hem⟩ := hle
        subst hc
        simp [hem, isConfigErr]
      · rw [if_neg hle]
        simp [isConfigErr, hle]

/-- C9: the per-user root directory and the base log directory are handed to
`mkdir(parents=True, exist_ok=True)` before the certificate/domain
validation rules run, so both directories are created even when
construction fails with a `ConfigurationError`. -/
theorem dirs_created_before_validation
    (resolve : String → String) (home installModeS modeS domain subnet name : String)
    (dns : Option (List String)) (uin : Bool) (certModeS certDirO email : Option String)
    (vols : Option (List (List String))) (mp envC dockC entryC : Option String)
    (homePreS tz : String)
    (h : isConfigErr (mkConfigFS resolve home installModeS modeS domain subnet name
        dns uin certModeS certDirO email vols mp envC dockC entryC homePreS tz).2
      = true) :
    userRootDir home name ∈ (mkConfigFS resolve home installModeS modeS domain subnet
        name dns uin certModeS certDirO email vols mp envC dockC entryC homePreS tz).1
    ∧ baseLogDir home name ∈ (mkConfigFS resolve home installModeS modeS domain subnet
        name dns uin certModeS certDirO email vols mp envC dockC entryC homePreS tz).1 := by
  cases hpm : ProxyMode.fromStr modeS with
  | error e =>
    simp only [mkConfigFS, hpm] at h
    cases e with
    | configurationError m => exact absurd hpm (proxyMode_fromStr_no_configErr _ _)
    | valueError m => simp [isConfigErr] at h
    | fileNotFoundError m => simp [isConfigErr] at h
  | ok pm =>
    cases him : InstallMode.fromStr installModeS with
    | error e =>
      simp only [mkConfigFS, hpm, him] at h
      cases e with
      | configurationError m => exact absurd him (installMode_fromStr_no_configErr _ _)
      | valueError m => simp [isConfigErr] at h
      | fileNotFoundError m => simp [isConfigErr] at h
    | ok im =>
      cases hcv : certValidation pm domain certModeS email with
      | error e =>
        simp only [mkConfigFS, hpm, him, hcv]
        constructor <;> simp
      | ok p =>
        obtain ⟨cm, em⟩ := p
        simp only [mkConfigFS, hpm, him, hcv]
        constructor <;> simp

/-- Witness for C9: a Remote-mode construction attempt with no certificate
mode fails with `ConfigurationError`, and both directories are among those
already created. -/
theorem dirs_created_before_validation_witness :
    isConfigErr (mkConfigFS (fun s => s) "/home/u" "user" "remote" "d" "s" "n" none
        false none none none none none none none none "/home/" "tz").2 = true
    ∧ (userRootDir "/home/u" "n" ∈ (mkConfigFS (fun s => s) "/home/u" "user" "remote"
          "d" "s" "n" none false none none none none none none none none "/home/" "tz").1
       ∧ baseLogDir "/home/u" "n" ∈ (mkConfigFS (fun s => s) "/home/u" "user" "remote"
          "d" "s" "n" none false none none none none none none none none "/home/" "tz").1) :=
  ⟨by decide,
    dirs_created_before_validation (fun s => s) "/home/u" "user" "remote" "d" "s" "n"
      none false none none none none none none none none "/home/" "tz" (by decide)⟩

/-- C4: saving a successfully constructed `Config` to its persistence format
and loading it back yields an equal `Config` (field-wise equality: Lean
structure equality compares every stored attribute, exactly as
`Config.__eq__` does), provided path resolution is idempotent and never
returns the empty string. -/
theorem config_roundtrip
    (resolve : String → String) (home installModeS modeS domain subnet name : String)
    (dns : Option (List String)) (uin : Bool) (certModeS certDirO email : Option String)
    (vols : Option (List (List String))) (mp envC dockC entryC : Option String)
    (homePreS tz : String) (c : Config)
    (hid : ∀ s, resolve (resolve s) = resolve s)
    (hne : ∀ s, resolve s ≠ "")
    (h : mkConfig resolve home installModeS modeS domain subnet name dns uin certModeS
        certDirO email vols mp envC dockC entryC homePreS tz = .ok c) :
    Config.fromYamlData resolve home (Config.toYamlData c) = .ok c := by
  unfold mkConfig at h
  cases hpm : ProxyMode.fromStr modeS with
  | error e => simp [mkConfigFS, hpm] at h
  | ok pm =>
  cases him : InstallMode.fromStr installModeS with
  | error e => simp [mkConfigFS, hpm, him] at h
  | ok im =>
  cases hcv : certValidation pm domain certModeS email with
  | error e => simp [mkConfigFS, hpm, him, hcv] at h
  | ok p =>
    obtain ⟨cm, em⟩ := p
    simp only [mkConfigFS, hpm, him, hcv] at h
    obtain rfl : c = _ := by simpa using h.symm
    unfold Config.fromYamlData Config.toYamlData mkConfig
    simp only [mkConfigFS, proxyMode_roundtrip, installMode_roundtrip,
      certValidation_roundtrip hcv]
    simp [normDns_idem, normMountPoint_idem, normChunk_idem resolve hid hne,
      rstripSlash_idem]

/-- Witness for C4 at a concrete valid Local-mode configuration. -/
theorem config_roundtrip_witness :
    mkConfig (fun _ => "/r") "/home/u" "user" "local" "demo.localhost" "s" "n" none
        false none none none none none none none none "/home/" "tz"
      = .ok ⟨.localMode, .user, ["8.8.8.8", "8.8.4.4"], "demo.localhost", "s", "n",
          false, "", none, none, none, none, "/home", "tz", none,
          "/home/u/.ispawn/certs", none⟩
    ∧ Config.fromYamlData (fun _ => "/r") "/home/u"
        (Config.toYamlData ⟨.localMode, .user, ["8.8.8.8", "8.8.4.4"], "demo.localhost",
          "s", "n", false, "", none, none, none, none, "/home", "tz", none,
          "/home/u/.ispawn/certs", none⟩)
      = .ok ⟨.localMode, .user, ["8.8.8.8", "8.8.4.4"], "demo.localhost", "s", "n",
          false, "", none, none, none, none, "/home", "tz", none,
          "/home/u/.ispawn/certs", none⟩ :=
  ⟨by decide,
    config_roundtrip (fun _ => "/r") "/home/u" "user" "local" "demo.localhost" "s" "n"
      none false none none none none none none none none "/home/" "tz" _
      (fun _ => rfl) (fun _ => (by decide : ("/r" : String) ≠ "")) (by decide)⟩

/-- C2: for every base image reference and every pair of permutations of the
same multiset of requested service identifiers, `target_image` derives the
identical tag: the identifiers are sorted before being joined, so the order
of specification never changes the tag. -/
theorem target_image_perm_invariant (namePre base : String) {s1 s2 : List String}
    (h : s1.Perm s2) :
    target_image namePre base s1 = target_image namePre base s2 := by
  unfold target_image
  rw [sortStrings_perm_eq h]

/-- Witness for C2 at a concrete instance: swapping the two requested
services does not change the derived tag. -/
theorem target_image_perm_invariant_witness :
    (["rstudio", "jupyter"] : List String).Perm ["jupyter", "rstudio"]
    ∧ target_image "ispawn-" "ubuntu:22.04" ["rstudio", "jupyter"]
        = target_image "ispawn-" "ubuntu:22.04" ["jupyter", "rstudio"] :=
  ⟨by decide, target_image_perm_invariant "ispawn-" "ubuntu:22.04" (by decide)⟩

/-- C3 counterexample: for the base image `ubuntu` given without an explicit
tag, with service set `{jupyter}` and name prefix `ispawn-`, the code derives
`ispawn-ubuntu:jupyter` — not the claimed `ispawn-ubuntu:latest-jupyter`:
no `latest` base-tag component is inserted. -/
theorem target_image_latest_counterexample :
    target_image "ispawn-" "ubuntu" ["jupyter"] = .ok "ispawn-ubuntu:jupyter"
    ∧ target_image "ispawn-" "ubuntu" ["jupyter"] ≠ .ok "ispawn-ubuntu:latest-jupyter" := by
  decide

/-- C3 amended: when the base reference contains an explicit tag (exactly one
colon) the derived tag is `namePrefix ++ baseName ++ ":" ++ baseTag ++ "-" ++`
the sorted service identifiers joined by `-`; when the base reference carries
no colon, the tag component is just the sorted joined identifiers — no
`latest` default is inserted. -/
theorem target_image_formula (namePre baseName tag : String) (services : List String)
    (h1 : ∀ x ∈ baseName.data, x ≠ ':') (h2 : ∀ x ∈ tag.data, x ≠ ':') :
    target_image namePre (baseName ++ ":" ++ tag) services
      = .ok (namePre ++ baseName ++ ":" ++ tag ++ "-" ++ joinDash (sortStrings services))
    ∧ ∀ base : String, base.data.contains ':' = false →
        target_image namePre base services
          = .ok (namePre ++ base ++ ":" ++ joinDash (sortStrings services)) := by
  constructor
  · have hdata : (baseName ++ ":" ++ tag).data = baseName.data ++ ':' :: tag.data := by
      rw [String.data_append, String.data_append]
      simp
    have hcontains : (baseName ++ ":" ++ tag).data.contains ':' = true := by
      rw [hdata]
      simp
    have hsplit : strSplit (baseName ++ ":" ++ tag) ':' = [baseName, tag] := by
      unfold strSplit
      rw [hdata, splitChar_append baseName.data tag.data h1, splitChar_of_not_mem h2]
      simp [data_mk]
    unfold target_image
    rw [hcontains, hsplit]
    simp
  · intro base hb
    unfold target_image
    rw [hb]
    simp

/-- Witness for C3's amended formula at a concrete instance. -/
theorem target_image_formula_witness :
    (∀ x ∈ ("ubuntu" : String).data, x ≠ ':')
    ∧ target_image "ispawn-" ("ubuntu" ++ ":" ++ "22.04") ["rstudio", "jupyter"]
        = .ok ("ispawn-" ++ "ubuntu" ++ ":" ++ "22.04" ++ "-"
            ++ joinDash (sortStrings ["rstudio", "jupyter"])) :=
  ⟨by decide,
    (target_image_formula "ispawn-" "ubuntu" "22.04" ["rstudio", "jupyter"]
      (by decide) (by decide)).1⟩

/-- C5: the first loop of `parse_volumes` rejects one raw volume
specification exactly when splitting it on `:` yields more than 3 fields,
or exactly 3 fields whose third field is neither `ro` nor `rw`; all other
specifications pass this stage. -/
theorem parse_volume_fields_iff (mnt v : String) :
    (processVolume mnt v).isOk = false
    ↔ (3 < (strSplit v ':').length
       ∨ ((strSplit v ':').length = 3
          ∧ ¬ (strSplit v ':').getD 2 "" ∈ (["ro", "rw"] : List String))) := by
  by_cases hc : v.data.contains ':' = true
  · unfold processVolume
    rw [if_pos hc]
    by_cases h3 : (strSplit v ':').length > 3
    · rw [if_pos h3]
      simp only [Except.isOk, Except.toBool, eq_self_iff_true, true_iff]
      exact Or.inl h3
    · rw [if_neg h3]
      by_cases he : (strSplit v ':').length = 3
      · rw [if_pos he]
        by_cases hm : (strSplit v ':').getD 2 "" ∈ (["ro", "rw"] : List String)
        · rw [if_pos hm]
          simp only [Except.isOk, Except.toBool]
          constructor
          · intro h
            exact absurd h (by simp)
          · rintro (h' | ⟨h', hne⟩)
            · exact absurd h' h3
            · exact absurd hm hne
        · rw [if_neg hm]
          simp only [Except.isOk, Except.toBool, eq_self_iff_true, true_iff]
          exact Or.inr ⟨he, hm⟩
      · rw [if_neg he]
        simp only [Except.isOk, Except.toBool]
        constructor
        · intro h
          exact absurd h (by simp)
        · rintro (h' | ⟨h', hne⟩)
          · exact absurd h' h3
          · exact absurd h' he
  · have hnm : ∀ x ∈ v.data, x ≠ ':' := by
      intro x hx heq
      apply hc
      simp [heq ▸ hx]
    have hsplit : strSplit v ':' = [v] := by
      unfold strSplit
      rw [splitChar_of_not_mem hnm]
      simp [data_mk]
    unfold processVolume
    rw [if_neg hc]
    simp only [Except.isOk, Except.toBool, hsplit]
    constructor
    · intro h
      exact absurd h (by simp)
    · rintro (h' | ⟨h', hne⟩)
      · simp at h'
      · simp at h'

/-- C6 counterexample: on the bare (colon-free) multi-segment host path
`/home/u/work` with mount point `/mnt`, `parse_volumes` synthesizes the
container path `/mnt/home/u/work` — the whole relative host path — and not
`mountPointPrefix + "/" + basename(hostPath)` (`/mnt/work`). -/
theorem bare_volume_basename_counterexample :
    parse_volumes (fun s => some s) "/mnt" ["/home/u/work"]
      = .ok [["/home/u/work", "/mnt/home/u/work"]]
    ∧ "/mnt/home/u/work" ≠ "/mnt" ++ "/" ++ basenameOf "/home/u/work" := by
  decide

/-- C6 amended: for a bare (colon-free) volume specification the synthesized
container path is `mnt.rstrip("/") + "/" + hostPath.lstrip("/").rstrip("/")`
— the full relative host path, which coincides with the basename only for
single-segment paths. -/
theorem bare_volume_container_path (mnt v : String)
    (h : v.data.contains ':' = false) :
    processVolume mnt v
      = .ok [v, rstripSlash mnt ++ "/" ++ rstripSlash (lstripSlash v)] := by
  unfold processVolume
  rw [if_neg (by rw [h]; simp)]

/-- Witness for C6's amended rule at the spec's own example: bare `/data`
with mount point `/mnt` yields container path `/mnt/data`. -/
theorem bare_volume_container_path_witness :
    ("/data" : String).data.contains ':' = false
    ∧ processVolume "/mnt" "/data" = .ok ["/data", "/mnt/data"] :=
  ⟨by decide, (bare_volume_container_path "/mnt" "/data" (by decide)).trans (by decide)⟩

/-- C7: two distinct services of the same container never produce the same
router identifier (the same string also serves as the load-balancer service
identifier in `get_labels`, so those are distinct too). -/
theorem router_ids_distinct (cfg : ContainerCfg) (s1 s2 : CService)
    (h1 : s1 ∈ cfg.services) (h2 : s2 ∈ cfg.services) (hne : s1 ≠ s2) :
    routerId s1 cfg.raw_name ≠ routerId s2 cfg.raw_name := by
  cases s1 <;> cases s2 <;>
    first
      | exact absurd rfl hne
      | exact ne_append_of_take_ne 6 (by decide) (by decide) (by decide) _ _

/-- Witness for C7 at a concrete container with two requested services. -/
theorem router_ids_distinct_witness :
    (CService.jupyter ∈ (⟨"a", "demo.localhost", [CService.jupyter, CService.rstudio],
        ContainerCertMode.provided⟩ : ContainerCfg).services)
    ∧ (CService.rstudio ∈ (⟨"a", "demo.localhost", [CService.jupyter, CService.rstudio],
        ContainerCertMode.provided⟩ : ContainerCfg).services)
    ∧ CService.jupyter ≠ CService.rstudio
    ∧ routerId CService.jupyter "a" ≠ routerId CService.rstudio "a" :=
  ⟨by decide, by decide, by decide,
    router_ids_distinct
      ⟨"a", "demo.localhost", [CService.jupyter, CService.rstudio],
        ContainerCertMode.provided⟩
      CService.jupyter CService.rstudio (by decide) (by decide) (by decide)⟩

/-- C8: for every requested service of a container, the generated label set
contains that service's router certificate-resolver label
(`.tls.certresolver=letsencrypt`) exactly when the certificate strategy is
`letsencrypt`; under the other certificate configuration the router instead
carries the plain `.tls=true` label (and, by the iff, no certresolver label
for that router appears). -/
theorem tls_certresolver_iff (cfg : ContainerCfg) (s : CService)
    (hs : s ∈ cfg.services) :
    (certResolverLabel s cfg.raw_name ∈ get_labels cfg
      ↔ cfg.cert_mode = .letsencrypt)
    ∧ (cfg.cert_mode ≠ .letsencrypt →
        plainTlsLabel s cfg.raw_name ∈ get_labels cfg) := by
  constructor
  · constructor
    · intro hmem
      by_contra hne
      have hmode : cfg.cert_mode = .provided := by
        cases h : cfg.cert_mode with
        | provided => rfl
        | letsencrypt => exact absurd h hne
      exact absurd hmem (certLabel_not_mem_provided s hmode)
    · intro hmode
      unfold get_labels
      rw [List.mem_append, List.mem_flatMap]
      right
      refine ⟨s, hs, ?_⟩
      unfold serviceLabels
      rw [hmode, if_pos rfl]
      simp
  · intro hne
    have hmode : cfg.cert_mode = .provided := by
      cases h : cfg.cert_mode with
      | provided => rfl
      | letsencrypt => exact absurd h hne
    unfold get_labels
    rw [List.mem_append, List.mem_flatMap]
    right
    refine ⟨s, hs, ?_⟩
    unfold serviceLabels
    rw [hmode, if_neg (by decide)]
    simp

/-- Witness for C8 at a concrete container requesting `jupyter` under the
`letsencrypt` certificate strategy. -/
theorem tls_certresolver_iff_witness :
    (CService.jupyter ∈ (⟨"a", "demo.localhost", [CService.jupyter],
        ContainerCertMode.letsencrypt⟩ : ContainerCfg).services)
    ∧ ((certResolverLabel CService.jupyter "a"
          ∈ get_labels ⟨"a", "demo.localhost", [CService.jupyter],
              ContainerCertMode.letsencrypt⟩
        ↔ (⟨"a", "demo.localhost", [CService.jupyter],
            ContainerCertMode.letsencrypt⟩ : ContainerCfg).cert_mode
            = ContainerCertMode.letsencrypt)
       ∧ ((⟨"a", "demo.localhost", [CService.jupyter],
            ContainerCertMode.letsencrypt⟩ : ContainerCfg).cert_mode
            ≠ ContainerCertMode.letsencrypt →
          plainTlsLabel CService.jupyter "a"
            ∈ get_labels ⟨"a", "demo.localhost", [CService.jupyter],
                ContainerCertMode.letsencrypt⟩)) :=
  ⟨by decide,
    tls_certresolver_iff
      ⟨"a", "demo.localhost", [CService.jupyter], ContainerCertMode.letsencrypt⟩
      CService.jupyter (by decide)⟩

/-- C10: a container configuration built with an absent (`None`) or empty
volume list defaults to one binding mounting the invoking user's home
directory at `os.path.join(host_prefix, home.lstrip("/"))`, rather than
mounting nothing. -/
theorem default_volume_is_home (home hostPre : String)
    (volumes : Option (List String))
    (h : volumes = none ∨ volumes = some []) :
    mkContainerVolumes home hostPre volumes
      = [home ++ ":" ++ osPathJoin hostPre (lstripSlash home)] := by
  rcases h with h | h <;> subst h <;> rfl

/-- Witness for C10 at a concrete home directory and host prefix. -/
theorem default_volume_is_home_witness :
    ((none : Option (List String)) = none ∨ (none : Option (List String)) = some [])
    ∧ mkContainerVolumes "/home/alice" "/mnt/host" none
        = ["/home/alice:/mnt/host/home/alice"] :=
  ⟨Or.inl rfl,
    (default_volume_is_home "/home/alice" "/mnt/host" none (Or.inl rfl)).trans (by decide)⟩

end Ispawn
